import Mathlib

/-!
Verification of the maccelerator adaptive-sampling core
(`maccelerator/model.py`, `maccelerator/param.py`) against its
natural-language specification, via a shallow embedding.

Counts matrices are embedded as `List (List Nat)` (dense row-major,
entry (i, j) = observed transitions i → j).  Trajectories only matter
through their frame count or their membership in a loaded collection,
so they are lists.  Python exceptions are embedded as an explicit
`Except` layer; Python `None` fields are `Option`.
-/

/-- Python exception kinds relevant to the embedded code.  `attributeError`
is what CPython raises for an attribute access on `None`; the two
spec-named errors are included so that theorems can distinguish them
(neither class exists anywhere in the repository). -/
inductive PyError
| attributeError
| notBuiltError
| insufficientDataError
deriving DecidableEq

/-- Row sums of the counts matrix: the source's
`counts_per_state = np.asarray(counts.sum(axis=1)).flatten()`. -/
def countsPerState (counts : List (List Nat)) : List Nat :=
  counts.map (fun row => row.sum)

/-- Comparison underlying the stable index-sort model of `np.argsort`:
index `i` precedes index `j` when its value is smaller, with ties
resolved by ascending index.  `np.argsort`'s default quicksort is
unstable, so its tie order differs from this in general; the stable
model is used only for consequences that are invariant under the order
of tied indices (`npArgsort` below embeds the exact algorithm and is
used wherever tie order matters). -/
def argsortRel (xs : List Nat) (i j : Nat) : Prop :=
  xs.getD i 0 < xs.getD j 0 ∨ (xs.getD i 0 = xs.getD j 0 ∧ i ≤ j)

instance argsortRelDecidable (xs : List Nat) : DecidableRel (argsortRel xs) :=
  fun i j =>
    inferInstanceAs
      (Decidable (xs.getD i 0 < xs.getD j 0 ∨ (xs.getD i 0 = xs.getD j 0 ∧ i ≤ j)))

instance argsortRelTotal (xs : List Nat) : IsTotal Nat (argsortRel xs) :=
  ⟨by intro a b; unfold argsortRel; omega⟩

instance argsortRelTrans (xs : List Nat) : IsTrans Nat (argsortRel xs) :=
  ⟨by intro a b c hab hbc; unfold argsortRel at *; omega⟩

/-- Stable model of `np.argsort xs`: the indices `0 .. xs.length - 1`
sorted so that the corresponding values of `xs` are ascending (ties by
index).  It agrees with the real `np.argsort` on which multiset of
indices is returned and on the value order, but not, in general, on
the relative order of tied indices. -/
def argsort (xs : List Nat) : List Nat :=
  List.insertionSort (argsortRel xs) (List.range xs.length)

/-- `SortCountsAdapter.adapt` from `model.py`: row-sum the counts matrix,
argsort, truncate to `n_tpr` entries when longer.  The source sets
`found_states = None  # TODO: Deal with found states`, so the projection
branch (`counts_per_state = counts_per_state[found_states]`) is dead;
it is kept here, guarded by the same hardcoded `none`. -/
def SortCountsAdapter.adapt (counts : List (List Nat)) (n_tpr : Nat) : List Nat :=
  let found_states : Option (List Nat) := none
  let counts_per_state := countsPerState counts
  let counts_per_state :=
    match found_states with
    | some fs => fs.map (fun s => counts_per_state.getD s 0)
    | none => counts_per_state
  let states_to_sample := argsort counts_per_state
  if states_to_sample.length > n_tpr then states_to_sample.take n_tpr
  else states_to_sample

theorem SortCountsAdapter.adapt_eq (counts : List (List Nat)) (n_tpr : Nat) :
    SortCountsAdapter.adapt counts n_tpr =
      if (argsort (countsPerState counts)).length > n_tpr then
        (argsort (countsPerState counts)).take n_tpr
      else argsort (countsPerState counts) := rfl

example : SortCountsAdapter.adapt [[5, 0, 0], [2, 3, 0], [0, 1, 0]] 2 = [2, 0] := by decide

example : SortCountsAdapter.adapt [[5, 0, 0], [0, 3, 0], [0, 0, 0]] 1 = [2] := by decide

/-- Value of the element that slot `k` of the index array `t` points to:
`v[*pk]` in numpy's `aquicksort`. -/
def aval (v t : Array Nat) (k : Nat) : Nat := v.getD (t.getD k 0) 0

/-- `INTP_SWAP` on the index array. -/
def aswap (t : Array Nat) (i j : Nat) : Array Nat :=
  let x := t.getD i 0
  let y := t.getD j 0
  (t.setD i y).setD j x

/-- The Hoare scan `do ++pi; while (v[*pi] < vp)` of numpy's
`aquicksort`, called with the already incremented position; the fuel
(array size) is never exhausted because the median-of-3 arrangement
leaves a stopper at the pivot slot. -/
def npScanUp (v t : Array Nat) (vp : Nat) : Nat → Nat → Nat
  | 0, k => k
  | fuel + 1, k => if aval v t k < vp then npScanUp v t vp fuel (k + 1) else k

/-- The mirror scan `do --pj; while (vp < v[*pj])`; the stopper is the
low end of the range, whose value is at most the pivot. -/
def npScanDown (v t : Array Nat) (vp : Nat) : Nat → Nat → Nat
  | 0, k => k
  | fuel + 1, k => if vp < aval v t k then npScanDown v t vp fuel (k - 1) else k

/-- The partition exchange loop of `aquicksort`: scan up, scan down,
stop when the scans cross, otherwise swap and continue.  Returns the
index array and the crossing position `pi`. -/
def npPartitionLoop (v : Array Nat) (vp : Nat) :
    Nat → Array Nat → Nat → Nat → Array Nat × Nat
  | 0, t, pi, _ => (t, pi)
  | fuel + 1, t, pi, pj =>
    let pi2 := npScanUp v t vp t.size (pi + 1)
    let pj2 := npScanDown v t vp t.size (pj - 1)
    if pi2 ≥ pj2 then (t, pi2)
    else npPartitionLoop v vp fuel (aswap t pi2 pj2) pi2 pj2

/-- The shift loop of `aquicksort`'s small-range insertion sort:
`while (pj > pl && vp < v[*pk]) *pj-- = *pk--`. -/
def npInsertShift (v : Array Nat) (vp pl : Nat) :
    Nat → Array Nat → Nat → Array Nat × Nat
  | 0, t, pj => (t, pj)
  | fuel + 1, t, pj =>
    if pl < pj ∧ vp < aval v t (pj - 1) then
      npInsertShift v vp pl fuel (t.setD pj (t.getD (pj - 1) 0)) (pj - 1)
    else (t, pj)

/-- The outer loop of the small-range insertion sort:
`for (pi = pl + 1; pi <= pr; ++pi)`. -/
def npInsertionLoop (v : Array Nat) (pl pr : Nat) : Nat → Array Nat → Nat → Array Nat
  | 0, t, _ => t
  | fuel + 1, t, pi =>
    if pi ≤ pr then
      let vi := t.getD pi 0
      let vp := v.getD vi 0
      let r := npInsertShift v vp pl t.size t pi
      npInsertionLoop v pl pr fuel ((r.1).setD r.2 vi) (pi + 1)
    else t

/-- Insertion sort of the index range `[pl, pr]` by value (stable). -/
def npInsertionSortRange (v t : Array Nat) (pl pr : Nat) : Array Nat :=
  npInsertionLoop v pl pr (t.size + 1) t (pl + 1)

/-- numpy's `aquicksort` (npysort): median-of-3 quicksort on the index
array with a Hoare partition, falling back to insertion sort for
subranges of at most `SMALL_QUICKSORT + 1 = 16` elements.  The C code
keeps the smaller partition and stacks the larger; that traversal is
depth-first, so it is rendered here as recursion into the smaller side
first.  Each recursive call strictly shrinks the range, so the fuel
(initially one more than the array length) is never exhausted. -/
def npAquicksortMain (v : Array Nat) : Nat → Array Nat → Nat → Nat → Array Nat
  | 0, t, _, _ => t
  | fuel + 1, t, pl, pr =>
    if pr - pl > 15 then
      let pm := pl + (pr - pl) / 2
      let t1 := if aval v t pm < aval v t pl then aswap t pm pl else t
      let t2 := if aval v t1 pr < aval v t1 pm then aswap t1 pr pm else t1
      let t3 := if aval v t2 pm < aval v t2 pl then aswap t2 pm pl else t2
      let vp := aval v t3 pm
      let t4 := aswap t3 pm (pr - 1)
      let r := npPartitionLoop v vp t4.size t4 pl (pr - 1)
      let pi := r.2
      let t5 := aswap r.1 pi (pr - 1)
      if pi - pl < pr - pi then
        npAquicksortMain v fuel (npAquicksortMain v fuel t5 pl (pi - 1)) (pi + 1) pr
      else
        npAquicksortMain v fuel (npAquicksortMain v fuel t5 (pi + 1) pr) pl (pi - 1)
    else
      npInsertionSortRange v t pl pr

/-- `np.argsort xs` with its default `kind='quicksort'`, embedded
exactly: run `aquicksort` on the index array `arange(len(xs))`. -/
def npArgsort (xs : List Nat) : List Nat :=
  (npAquicksortMain xs.toArray (xs.length + 1)
    (List.range xs.length).toArray 0 (xs.length - 1)).toList

example : npArgsort [5, 5, 1] = [2, 0, 1] := by decide

example : npArgsort [5, 3, 0] = [2, 1, 0] := by decide

example : npArgsort [2, 2, 2, 2, 2] = [0, 1, 2, 3, 4] := by decide

example : npArgsort (List.replicate 17 0) =
    [0, 14, 13, 12, 11, 10, 9, 15, 8, 6, 5, 4, 3, 2, 1, 7, 16] := by decide

example : npArgsort [1, 0, 1, 0, 1, 0, 1, 0, 1, 0, 1, 0, 1, 0, 1, 0, 1, 0, 1, 0] =
    [9, 17, 15, 13, 11, 7, 19, 5, 3, 1, 8, 18, 10, 4, 12, 14, 2, 16, 6, 0] := by decide

/-- `SortCountsAdapter.adapt` with `np.argsort` embedded exactly
(`npArgsort`) in place of the stable model; identical to
`SortCountsAdapter.adapt` in every other respect.  Used where the
relative order of states with tied counts matters. -/
def SortCountsAdapter.adaptNp (counts : List (List Nat)) (n_tpr : Nat) : List Nat :=
  let found_states : Option (List Nat) := none
  let counts_per_state := countsPerState counts
  let counts_per_state :=
    match found_states with
    | some fs => fs.map (fun s => counts_per_state.getD s 0)
    | none => counts_per_state
  let states_to_sample := npArgsort counts_per_state
  if states_to_sample.length > n_tpr then states_to_sample.take n_tpr
  else states_to_sample

/-- Entry (i, j) of a dense counts matrix; out-of-range reads are 0,
matching the convention that absent transitions were never observed. -/
def entry (counts : List (List Nat)) (i j : Nat) : Nat :=
  (counts.getD i []).getD j 0

/-- The COO representation of the counts matrix: the (row, column) index
pairs of its stored (non-zero) entries, row-major — the source's
`countscoo = msm.rawcounts_.tocoo()`. -/
def cooEntries (counts : List (List Nat)) : List (Nat × Nat) :=
  counts.enum.flatMap (fun p =>
    ((p.2.enum).filter (fun q => q.2 != 0)).map (fun q => (p.1, q.1)))

/-- `TMatModeller._model`'s found-state computation:
`np.unique(np.hstack((countscoo.row, countscoo.col)))` — the sorted,
duplicate-free list of indices occurring as a row or column index of a
non-zero entry. -/
def TMatModeller.found_states (counts : List (List Nat)) : List Nat :=
  List.insertionSort (fun a b => a ≤ b)
    (((cooEntries counts).map Prod.fst ++ (cooEntries counts).map Prod.snd).dedup)

example : TMatModeller.found_states [[5, 0, 0], [0, 3, 0], [0, 0, 0]] = [0, 1] := by decide

/-- Total frame count over a trajectory collection:
`n_datapoints = np.sum([len(traj) for traj in trajs_vec])`. -/
def totalFrames {α : Type} (trajs_vec : List (List α)) : Nat :=
  (trajs_vec.map List.length).sum

/-- `ClusterModeller._model`'s cluster-count heuristic:
`n_clusters = int(np.sqrt(n_datapoints / 2))`.  Since
`⌊√x⌋ = ⌊√⌊x⌋⌋` for non-negative `x`, the float round-trip equals
`Nat.sqrt (n / 2)` with truncating natural division. -/
def ClusterModeller.n_clusters {α : Type} (trajs_vec : List (List α)) : Nat :=
  Nat.sqrt (totalFrames trajs_vec / 2)

/-- `ClusterModeller._model`, up to the repository boundary: it computes
`n_clusters` and then hands the data to the external clustering and MSM
libraries.  The repository code performs no frame-count or lag-time
validation and contains no raise statement, so its own control flow
always succeeds; any failure would come from the external calls. -/
def ClusterModeller.modelBuild {α : Type} (trajs_vec : List (List α))
    (_lagtime : Nat) : Except PyError Nat :=
  Except.ok (ClusterModeller.n_clusters trajs_vec)

/-- `TMatModeller._model`, up to the repository boundary: it delegates
fitting to the external `MarkovStateModel` and then derives
`found_states` from the fitted counts.  As with `ClusterModeller`, the
repository code validates nothing and raises nothing. -/
def TMatModeller.modelBuild (_trajs : List (List Nat))
    (_lagtime : Nat) : Except PyError Unit :=
  Except.ok ()

/-- The fitted-MSM handle stored on a modeller; only its raw counts
matrix (`msm.rawcounts_`) is read by the embedded code. -/
structure MSMFit where
  rawcounts : List (List Nat)

/-- The mutable state shared by `ClusterModeller.__init__` and
`TMatModeller.__init__`: `self.msm = None` until a model is built. -/
structure Modeller where
  msm : Option MSMFit

/-- A freshly constructed modeller, before any `build`. -/
def Modeller.initState : Modeller := { msm := none }

/-- The effect of a successful model build: `self.msm = msm`. -/
def Modeller.fit (m : Modeller) (result : MSMFit) : Modeller :=
  { m with msm := some result }

/-- The `counts` property: `return self.msm.rawcounts_`.  When `msm` is
still `None`, Python raises `AttributeError` (`NoneType` has no
attribute `rawcounts_`) — there is no not-built check in the source. -/
def Modeller.counts (m : Modeller) : Except PyError (List (List Nat)) :=
  match m.msm with
  | none => Except.error PyError.attributeError
  | some msm => Except.ok msm.rawcounts

/-- `SortCountsAdapter.adapt` as invoked on a modeller: its first line is
`counts = self.modeller.counts`, so a failure of the accessor
propagates unchanged. -/
def SortCountsAdapter.adaptFrom (modeller : Modeller) (n_tpr : Nat) :
    Except PyError (List Nat) :=
  match Modeller.counts modeller with
  | Except.error e => Except.error e
  | Except.ok c => Except.ok (SortCountsAdapter.adapt c n_tpr)

/-- The `.h5` suffix test `s.endswith('.h5')` from `load_trajectories`,
via the character list of the string. -/
def isH5 (s : String) : Bool :=
  decide (s.toList.reverse.take 3 = ['5', 'h', '.'])

/-- The per-round trajectory directory `os.path.join('trajs', 'round-%d' % cround)`. -/
def trajDir (cround : Nat) : String :=
  "trajs/round-" ++ toString cround

/-- `load_trajectories(round_i, load_func)` from `model.py`: for every
`cround in range(round_i + 1)`, load each `.h5` entry of that round's
trajectory directory.  The filesystem is abstracted as the
directory-listing function `listdir` and the loader `load_func`; the
wall-step statistic the source also returns is independent of which
trajectories are loaded and is not modelled. -/
def MoveTheseElsewhere.load_trajectories {T : Type} (listdir : Nat → List String)
    (load_func : String → T) (round_i : Nat) : List T :=
  (List.range (round_i + 1)).flatMap (fun cround =>
    ((listdir cround).filter isH5).map
      (fun s => load_func (trajDir cround ++ "/" ++ s)))

/-- `os.path.join` for the two-argument uses in `param.py`. -/
def pjoin (a b : String) : String := a ++ "/" ++ b

/-- `os.mkdir`: raises `OSError` (`FileExistsError`) when the directory
already exists, otherwise creates it.  The filesystem is the list of
existing directories. -/
def mkdir (d : String) (fs : List String) : Except Unit (List String) :=
  if d ∈ fs then Except.error () else Except.ok (d :: fs)

/-- `AdaptiveParams.make_directories` from `param.py`: four `os.mkdir`
calls inside `try/except OSError`; on any failure it logs a warning and
returns `('', False)`, otherwise `(traj_dir, True)`.  The `except`
swallows every error `mkdir` can raise, so the embedding is a total
function returning the result pair together with the filesystem. -/
def AdaptiveParams.make_directories (rundir : String) (fs : List String) :
    (String × Bool) × List String :=
  let traj_dir := pjoin rundir "trajs"
  let sstate_dir := pjoin rundir "sstates"
  let msms_dir := pjoin rundir "msms"
  let figs_dir := pjoin rundir "figs"
  match mkdir traj_dir fs with
  | Except.error _ => (("", false), fs)
  | Except.ok fs1 =>
    match mkdir sstate_dir fs1 with
    | Except.error _ => (("", false), fs1)
    | Except.ok fs2 =>
      match mkdir msms_dir fs2 with
      | Except.error _ => (("", false), fs2)
      | Except.ok fs3 =>
        match mkdir figs_dir fs3 with
        | Except.error _ => (("", false), fs3)
        | Except.ok fs4 => ((traj_dir, true), fs4)


theorem argsort_sorted (xs : List Nat) :
    List.Pairwise (argsortRel xs) (argsort xs) :=
  List.sorted_insertionSort (argsortRel xs) (List.range xs.length)

theorem argsort_nodup (xs : List Nat) : (argsort xs).Nodup :=
  (List.perm_insertionSort (argsortRel xs) (List.range xs.length)).symm.nodup
    (List.nodup_range _)

theorem argsort_length (xs : List Nat) : (argsort xs).length = xs.length := by
  unfold argsort
  rw [List.length_insertionSort, List.length_range]

theorem argsort_mem_lt (xs : List Nat) (s : Nat) (hs : s ∈ argsort xs) :
    s < xs.length := by
  unfold argsort at hs
  rw [List.mem_insertionSort, List.mem_range] at hs
  exact hs

theorem countsPerState_length (counts : List (List Nat)) :
    (countsPerState counts).length = counts.length := by
  unfold countsPerState
  rw [List.length_map]

theorem adapt_sublist (counts : List (List Nat)) (n_tpr : Nat) :
    (SortCountsAdapter.adapt counts n_tpr).Sublist (argsort (countsPerState counts)) := by
  rw [SortCountsAdapter.adapt_eq]
  split
  · exact List.take_sublist _ _
  · exact List.Sublist.refl _

/-- C2 (counterexample): on a model with 17 states all tied at count 0
and `tpr = 3`, the exact embedding of the code (`npArgsort` inside the
adapter pipeline) returns `[0, 14, 13]` — not `[0, 1, 2]` as
ascending-index tie-breaking would demand: states 14 and 13 have equal
counts yet appear in descending index order, because `np.argsort`'s
default quicksort is unstable once a range exceeds its insertion-sort
threshold of 16 elements. -/
theorem SortCountsAdapter.adaptNp_unstable_ties :
    SortCountsAdapter.adaptNp (List.replicate 17 [0]) 3 = [0, 14, 13] ∧
    SortCountsAdapter.adaptNp (List.replicate 17 [0]) 3 ≠ [0, 1, 2] ∧
    ¬ List.Pairwise
        (fun a b =>
          (countsPerState (List.replicate 17 [0])).getD a 0 <
              (countsPerState (List.replicate 17 [0])).getD b 0 ∨
            ((countsPerState (List.replicate 17 [0])).getD a 0 =
                (countsPerState (List.replicate 17 [0])).getD b 0 ∧ a < b))
        (SortCountsAdapter.adaptNp (List.replicate 17 [0]) 3) := by
  refine ⟨by decide, by decide, by decide⟩

/-- C2 (amended): the sequence returned by `SortCountsAdapter.adapt` is
sorted in non-decreasing order of `counts_per_state` (row sums of the
counts matrix) — a property independent of how the sort orders tied
indices, so it is proved on the stable model; the relative order of
equal-count states is whatever `np.argsort`'s unstable quicksort
produces and is not, in general, ascending state index.  On the counts
matrix `[[5,0,0],[2,3,0],[0,1,0]]` with `tpr = 2` the exact embedding
(and the stable model, which agrees here) returns exactly `[2, 0]`,
and the selection is deterministic (the same input always yields the
same output). -/
theorem SortCountsAdapter.adapt_sorted_nondecreasing :
    (∀ (counts : List (List Nat)) (n_tpr : Nat),
      List.Pairwise
        (fun a b =>
          (countsPerState counts).getD a 0 ≤ (countsPerState counts).getD b 0)
        (SortCountsAdapter.adapt counts n_tpr)) ∧
    SortCountsAdapter.adaptNp [[5, 0, 0], [2, 3, 0], [0, 1, 0]] 2 = [2, 0] ∧
    SortCountsAdapter.adapt [[5, 0, 0], [2, 3, 0], [0, 1, 0]] 2 = [2, 0] ∧
    (∀ (counts : List (List Nat)) (n_tpr : Nat),
      SortCountsAdapter.adaptNp counts n_tpr = SortCountsAdapter.adaptNp counts n_tpr) := by
  refine ⟨?_, by decide, by decide, fun _ _ => rfl⟩
  intro counts n_tpr
  refine (List.Pairwise.sublist (adapt_sublist counts n_tpr)
    (argsort_sorted (countsPerState counts))).imp ?_
  intro a b hab
  unfold argsortRel at hab
  omega

/-- C3: for every counts matrix and positive `tpr`,
`SortCountsAdapter.adapt` returns exactly `min tpr n` states, where `n`
is the number of candidate states (the rows of the counts matrix, since
the found-states restriction in the source is dead code): with fewer
candidates than `tpr` all of them are returned, and no failure occurs. -/
theorem SortCountsAdapter.adapt_length (counts : List (List Nat)) (n_tpr : Nat)
    (h : 0 < n_tpr) :
    (SortCountsAdapter.adapt counts n_tpr).length = min n_tpr counts.length := by
  rw [SortCountsAdapter.adapt_eq]
  have hlen : (argsort (countsPerState counts)).length = counts.length := by
    rw [argsort_length, countsPerState_length]
  split
  · rw [List.length_take, hlen]
  · next h2 =>
    rw [hlen] at h2 ⊢
    omega

/-- Witness for C3 at a concrete input: one candidate state, `tpr = 2`,
so all (one) candidates are returned. -/
theorem SortCountsAdapter.adapt_length_witness :
    0 < 2 ∧ (SortCountsAdapter.adapt [[(1 : Nat)]] 2).length = min 2 1 :=
  ⟨by decide, SortCountsAdapter.adapt_length [[1]] 2 (by decide)⟩

/-- C10: the state sequence returned by `SortCountsAdapter.adapt` on an
n-row counts matrix consists of pairwise-distinct indices, each below
n; no state is returned twice. -/
theorem SortCountsAdapter.adapt_nodup_in_range (counts : List (List Nat))
    (n_tpr : Nat) :
    (SortCountsAdapter.adapt counts n_tpr).Nodup ∧
      ∀ s, s ∈ SortCountsAdapter.adapt counts n_tpr → s < counts.length := by
  constructor
  · exact List.Nodup.sublist (adapt_sublist counts n_tpr)
      (argsort_nodup (countsPerState counts))
  · intro s hs
    have hs2 : s ∈ argsort (countsPerState counts) :=
      (adapt_sublist counts n_tpr).subset hs
    have := argsort_mem_lt (countsPerState counts) s hs2
    rwa [countsPerState_length] at this

/-- Witness for C10 at a concrete input. -/
theorem SortCountsAdapter.adapt_nodup_in_range_witness :
    (SortCountsAdapter.adapt [[(1 : Nat)]] 1).Nodup ∧
      ∀ s, s ∈ SortCountsAdapter.adapt [[(1 : Nat)]] 1 → s < 1 :=
  SortCountsAdapter.adapt_nodup_in_range [[1]] 1

/-- C1 (failing input): on the counts matrix `[[5,0,0],[0,3,0],[0,0,0]]`
the found states are exactly `{0, 1}` (state 2 has no incoming or
outgoing transition), yet `SortCountsAdapter.adapt` with `tpr = 1`
selects state 2 — a state outside the found states.  The source
hardcodes `found_states = None` (a `TODO` in the code), so the
projection onto found states never happens. -/
theorem SortCountsAdapter.adapt_escapes_found_states :
    SortCountsAdapter.adapt [[5, 0, 0], [0, 3, 0], [0, 0, 0]] 1 = [2] ∧
    TMatModeller.found_states [[5, 0, 0], [0, 3, 0], [0, 0, 0]] = [0, 1] ∧
    2 ∉ TMatModeller.found_states [[5, 0, 0], [0, 3, 0], [0, 0, 0]] := by
  refine ⟨by decide, by decide, by decide⟩

theorem cooEntries_mem (counts : List (List Nat)) (i j : Nat) :
    (i, j) ∈ cooEntries counts ↔ entry counts i j ≠ 0 := by
  unfold cooEntries entry
  rw [List.mem_flatMap]
  simp only [List.mem_map, List.mem_filter, List.mem_enum_iff_getElem?,
    bne_iff_ne, ne_eq, Prod.exists, Prod.mk.injEq,
    List.getD_eq_getElem?_getD]
  constructor
  · rintro ⟨a, b, hab, c, d, ⟨hcd, hdne⟩, rfl, rfl⟩
    rw [hab]
    simp [hcd, hdne]
  · intro h
    cases hc : counts[i]? with
    | none => rw [hc] at h; simp at h
    | some row =>
      rw [hc] at h
      simp only [Option.getD_some] at h
      cases hr : row[j]? with
      | none => rw [hr] at h; simp at h
      | some v =>
        rw [hr] at h
        simp only [Option.getD_some] at h
        exact ⟨i, row, hc, j, v, ⟨hr, h⟩, rfl, rfl⟩

/-- C5: after `TMatModeller._model` builds a model, `found_states` holds
exactly the union of row and column indices of non-zero entries of the
transition-count matrix: `s` is a found state if and only if some entry
`(s, j)` or some entry `(i, s)` is non-zero. -/
theorem TMatModeller.found_states_spec (counts : List (List Nat)) (s : Nat) :
    s ∈ TMatModeller.found_states counts ↔
      (∃ j, entry counts s j ≠ 0) ∨ (∃ i, entry counts i s ≠ 0) := by
  unfold TMatModeller.found_states
  rw [List.mem_insertionSort, List.mem_dedup, List.mem_append]
  simp only [List.mem_map, Prod.exists]
  constructor
  · rintro (⟨a, b, hab, rfl⟩ | ⟨a, b, hab, rfl⟩)
    · exact Or.inl ⟨b, (cooEntries_mem counts a b).1 hab⟩
    · exact Or.inr ⟨a, (cooEntries_mem counts a b).1 hab⟩
  · rintro (⟨j, hj⟩ | ⟨i, hi⟩)
    · exact Or.inl ⟨s, j, (cooEntries_mem counts s j).2 hj, rfl⟩
    · exact Or.inr ⟨i, s, (cooEntries_mem counts i s).2 hi, rfl⟩

/-- C4 (counterexample): with a single one-frame trajectory (total frame
count 1) the computed cluster count is 0, not at least 1 — the source
applies no clamp to `int(np.sqrt(n_datapoints / 2))`. -/
theorem ClusterModeller.n_clusters_zero_on_one_frame :
    totalFrames [[(0 : Nat)]] = 1 ∧ ClusterModeller.n_clusters [[(0 : Nat)]] = 0 := by
  decide

/-- C4 (amended): `ClusterModeller._model` computes
`n_clusters = ⌊√(N / 2)⌋` with no minimum clamp; the count is at least 1
exactly when the total frame count is at least 2 (and it is 0 for zero
or one frame). -/
theorem ClusterModeller.n_clusters_pos_iff {α : Type} (trajs_vec : List (List α)) :
    1 ≤ ClusterModeller.n_clusters trajs_vec ↔ 2 ≤ totalFrames trajs_vec := by
  unfold ClusterModeller.n_clusters
  rw [Nat.le_sqrt]
  omega

/-- C6 (counterexample): an empty trajectory set does not fail with
`InsufficientDataError`: `ClusterModeller._model` proceeds, computing
`n_clusters = 0` and handing the empty set to the external clustering
library, and `TMatModeller._model` likewise proceeds; no repository
code raises, and no `InsufficientDataError` class exists in the
repository. -/
theorem ClusterModeller.modelBuild_empty_proceeds :
    ClusterModeller.modelBuild ([] : List (List Nat)) 1 = Except.ok 0 ∧
    TMatModeller.modelBuild [] 1 = Except.ok () ∧
    ClusterModeller.modelBuild ([] : List (List Nat)) 1 ≠
      Except.error PyError.insufficientDataError :=
  ⟨rfl, rfl, fun h => Except.noConfusion h⟩

/-- C6 (amended): model building on both modellers performs no
frame-count or lag-time validation and cannot fail with
`InsufficientDataError`; for every trajectory set and lag time the
repository-side computation succeeds (any data-dependent failure would
arise inside the external clustering/MSM libraries instead). -/
theorem modelBuild_never_insufficient :
    (∀ (trajs_vec : List (List Nat)) (lagtime : Nat),
      (ClusterModeller.modelBuild trajs_vec lagtime).isOk = true) ∧
    (∀ (trajs : List (List Nat)) (lagtime : Nat),
      (TMatModeller.modelBuild trajs lagtime).isOk = true) :=
  ⟨fun _ _ => rfl, fun _ _ => rfl⟩

/-- C7 (counterexample): reading the `counts` accessor of a freshly
constructed modeller (before `build`) fails with Python's
`AttributeError` — `self.msm` is still `None` — not with a
`NotBuiltError`, and `SortCountsAdapter.adapt` before `build`
propagates that same `AttributeError`. -/
theorem Modeller.counts_before_build_attributeError :
    Modeller.counts Modeller.initState = Except.error PyError.attributeError ∧
    SortCountsAdapter.adaptFrom Modeller.initState 2 =
      Except.error PyError.attributeError ∧
    PyError.attributeError ≠ PyError.notBuiltError :=
  ⟨rfl, rfl, by decide⟩

/-- C7 (amended): before `build` has been called, both the `counts`
accessor and the adapter's selection fail, but with `AttributeError`
(the attribute access `self.msm.rawcounts_` on `None`); no
`NotBuiltError` or `ModelNotBuiltError` class exists in the code. -/
theorem Modeller.counts_fails_before_build :
    ∀ (n_tpr : Nat),
      Modeller.counts Modeller.initState = Except.error PyError.attributeError ∧
      SortCountsAdapter.adaptFrom Modeller.initState n_tpr =
        Except.error PyError.attributeError :=
  fun _ => ⟨rfl, rfl⟩

/-- C8: the trajectory set loaded for round `i + 1` extends the set
loaded for round `i`: `load_trajectories` iterates over all rounds
`0 .. round_i` inclusive, so every trajectory used at one round is
still used at the next (cumulative, never a sliding window). -/
theorem MoveTheseElsewhere.load_trajectories_cumulative {T : Type}
    (listdir : Nat → List String) (load_func : String → T) (round_i : Nat)
    (t : T)
    (ht : t ∈ MoveTheseElsewhere.load_trajectories listdir load_func round_i) :
    t ∈ MoveTheseElsewhere.load_trajectories listdir load_func (round_i + 1) := by
  unfold MoveTheseElsewhere.load_trajectories at ht ⊢
  rw [List.range_succ, List.flatMap_append]
  exact List.mem_append_left _ ht

/-- Witness for C8 at a concrete filesystem: one `.h5` trajectory in
round 0's directory stays part of the round-1 model input. -/
theorem MoveTheseElsewhere.load_trajectories_cumulative_witness :
    (([0] : List Nat) ∈
        MoveTheseElsewhere.load_trajectories (fun _ => ["traj0.h5"])
          (fun _ => ([0] : List Nat)) 0) ∧
      ([0] : List Nat) ∈
        MoveTheseElsewhere.load_trajectories (fun _ => ["traj0.h5"])
          (fun _ => ([0] : List Nat)) 1 :=
  ⟨by decide,
    MoveTheseElsewhere.load_trajectories_cumulative (fun _ => ["traj0.h5"])
      (fun _ => ([0] : List Nat)) 0 [0] (by decide)⟩

/-- C9: `make_directories` on an already existing layout does not raise:
the `OSError` from the first `os.mkdir` is caught, logged as a warning,
and reported through the return value `('', False)`, with the
filesystem left unchanged. -/
theorem AdaptiveParams.make_directories_existing_no_raise (rundir : String)
    (fs : List String)
    (h1 : pjoin rundir "trajs" ∈ fs) (h2 : pjoin rundir "sstates" ∈ fs)
    (h3 : pjoin rundir "msms" ∈ fs) (h4 : pjoin rundir "figs" ∈ fs) :
    AdaptiveParams.make_directories rundir fs = (("", false), fs) := by
  unfold AdaptiveParams.make_directories mkdir
  simp [h1]

/-- Witness for C9 at a concrete filesystem holding the full layout. -/
theorem AdaptiveParams.make_directories_existing_no_raise_witness :
    (pjoin "run" "trajs" ∈ ["run/trajs", "run/sstates", "run/msms", "run/figs"] ∧
      pjoin "run" "sstates" ∈ ["run/trajs", "run/sstates", "run/msms", "run/figs"] ∧
      pjoin "run" "msms" ∈ ["run/trajs", "run/sstates", "run/msms", "run/figs"] ∧
      pjoin "run" "figs" ∈ ["run/trajs", "run/sstates", "run/msms", "run/figs"]) ∧
    AdaptiveParams.make_directories "run"
        ["run/trajs", "run/sstates", "run/msms", "run/figs"] =
      (("", false), ["run/trajs", "run/sstates", "run/msms", "run/figs"]) :=
  ⟨⟨by decide, by decide, by decide, by decide⟩,
    AdaptiveParams.make_directories_existing_no_raise "run"
      ["run/trajs", "run/sstates", "run/msms", "run/figs"]
      (by decide) (by decide) (by decide) (by decide)⟩
